import Mathlib

/-
Verification of the SSHClient wrapper (src/SSHClient.py) against its
natural-language specification.

The wrapper delegates every operation to two external collaborators
(a paramiko SSH client and an scp SCPClient).  We embed the wrapper as
trace-producing functions over an oracle (`World`) that fixes, for one run,
what each collaborator call returns: either success or a raised error.
Each wrapper function returns the value the Python method would return
(errors as values), the instance state after the call, and the list of
observable events the call performed, in order.
-/

namespace EmbeddedAutomation

/-- Errors raised by Python code in this model.  `attributeError` is what a
method call on an attribute still holding the class-level default `None`
raises; the other constructors stand for errors raised by the paramiko and
scp collaborators. -/
inductive PyError where
  | attributeError (msg : String)
  | sshError (msg : String)
  | scpError (msg : String)
  deriving DecidableEq, Repr

/-- Embedding of Python `str(exception)`: the message carried by the error. -/
def PyError.str : PyError → String
  | .attributeError m => m
  | .sshError m => m
  | .scpError m => m

/-- Observable events of one run of the wrapper: calls into the paramiko
client (connect, close, exec_command), calls into the scp client
(construction bind, get, put, close), host-key setup calls, and each
`logger.info` record emitted. -/
inductive Event where
  | loadSystemHostKeys
  | setMissingHostKeyPolicy
  | connect (host : String) (port : Nat) (user password : String)
  | bindSCP
  | closeSSH
  | closeSCP
  | scpGet (remote_path local_path : String) (recursive : Bool)
  | scpPut (local_paths : List String) (remote_path : String) (recursive : Bool)
  | execCommand (command : String) (timeout : Nat)
  | logInfo (msg : String)
  deriving DecidableEq, Repr

/-- The three I/O handles returned by `paramiko.SSHClient.exec_command`:
a writer bound to the remote command standard input, a reader bound to its
standard output, and a reader bound to its standard error. -/
structure ExecHandles where
  stdinWriter : Nat
  stdoutReader : Nat
  stderrReader : Nat
  deriving DecidableEq, Repr

/-- Oracle fixing what each collaborator call returns during one run:
`none` means the call returns normally, `some e` means it raises `e`.
`execResult` carries the handle triple `exec_command` returns on success. -/
structure World where
  connectResult : Option PyError
  bindResult : Option PyError
  closeSSHResult : Option PyError
  closeSCPResult : Option PyError
  getResult : Option PyError
  putResult : Option PyError
  execResult : Except PyError ExecHandles
  deriving Repr

/-- Instance state of `SSHClient` (src/SSHClient.py lines 17-23): the four
connection attributes plus whether `ssh_client` and `scp_client` have been
assigned (false models the class-level default `None`). -/
structure SSHClientState where
  host : String
  port : Nat
  user : String
  password : String
  ssh_client : Bool
  scp_client : Bool
  deriving DecidableEq, Repr

/-- `self.__class__.__name__` for an `SSHClient` instance. -/
def className : String := "SSHClient"

/-- Embedding of `SSHClient.__log` (lines 59-65): emits two `logger.info`
records, first a source tag naming the class, then the data itself. -/
def SSHClient.log (cls : String) (data : String) : List Event :=
  [Event.logInfo ("Log source: " ++ cls), Event.logInfo data]

/-- The message interpolated at line 45 of src/SSHClient.py. -/
def connectMsg (host : String) (port : Nat) : String :=
  "Connection with " ++ host ++ " host on " ++ toString port ++
    " port has been successfully established..."

/-- The message interpolated at line 55 of src/SSHClient.py. -/
def closedMsg (host : String) : String :=
  "Connection with " ++ host ++ " host has been closed..."

/-- Embedding of `SSHClient.__init__` (lines 25-45).  Returns the error the
constructor raises (`none` on success), the instance state as assigned so
far (the object that exists even when the constructor raises), and the
event trace the constructor itself performed.  Lines 33-38 assign the four
attributes and create the paramiko client; lines 39-40 configure host
keys; line 41 connects; line 43 binds the SCPClient to the transport;
line 45 logs success. -/
def init (w : World) (host : String) (port : Nat) (user password : String) :
    Option PyError × SSHClientState × List Event :=
  let s0 : SSHClientState :=
    { host := host, port := port, user := user, password := password,
      ssh_client := true, scp_client := false }
  let setup := [Event.loadSystemHostKeys, Event.setMissingHostKeyPolicy]
  match w.connectResult with
  | some e => (some e, s0, setup ++ [Event.connect host port user password])
  | none =>
    match w.bindResult with
    | some e =>
        (some e, s0, setup ++ [Event.connect host port user password, Event.bindSCP])
    | none =>
        (none, { s0 with scp_client := true },
          setup ++ [Event.connect host port user password, Event.bindSCP] ++
            SSHClient.log className (connectMsg host port))

/-- Embedding of the `try` block body of `SSHClient.__del__` (lines 52-55):
`self.ssh_client.close()`, then `self.scp_client.close()`, then the closure
log.  A method call on an attribute that is still `None` raises
`AttributeError`.  Returns the error the body raises (`none` if it runs to
the end) and the events performed before the raise. -/
def delBody (w : World) (s : SSHClientState) : Option PyError × List Event :=
  if s.ssh_client then
    match w.closeSSHResult with
    | some e => (some e, [Event.closeSSH])
    | none =>
      if s.scp_client then
        match w.closeSCPResult with
        | some e => (some e, [Event.closeSSH, Event.closeSCP])
        | none =>
            (none, [Event.closeSSH, Event.closeSCP] ++
              SSHClient.log className (closedMsg s.host))
      else
        (some (PyError.attributeError "NoneType object has no attribute close"),
          [Event.closeSSH])
  else
    (some (PyError.attributeError "NoneType object has no attribute close"), [])

/-- Embedding of `SSHClient.__del__` (lines 47-57): runs the body and, when
the body raises any exception, catches it and logs `str(exception)`.  The
first component is the error the disposal itself propagates to its caller.
Disposal does not modify the instance attributes, so the state is not
threaded through. -/
def del (w : World) (s : SSHClientState) : Option PyError × List Event :=
  match delBody w s with
  | (none, evs) => (none, evs)
  | (some e, evs) => (none, evs ++ SSHClient.log className e.str)

/-- Embedding of `SSHClient.get` (lines 67-75): a single delegation
`self.scp_client.get(remote_path, local_path, recursive)` with no
try/except around it. -/
def get (w : World) (s : SSHClientState) (remote_path local_path : String)
    (recursive : Bool) : Option PyError × SSHClientState × List Event :=
  if s.scp_client then
    (w.getResult, s, [Event.scpGet remote_path local_path recursive])
  else
    (some (PyError.attributeError "NoneType object has no attribute get"), s, [])

/-- Embedding of `SSHClient.put` (lines 77-85): a single delegation
`self.scp_client.put(local_paths, remote_path, recursive)` with no
try/except around it. -/
def put (w : World) (s : SSHClientState) (local_paths : List String)
    (remote_path : String) (recursive : Bool) :
    Option PyError × SSHClientState × List Event :=
  if s.scp_client then
    (w.putResult, s, [Event.scpPut local_paths remote_path recursive])
  else
    (some (PyError.attributeError "NoneType object has no attribute put"), s, [])

/-- Embedding of `SSHClient.execute` (lines 87-94): a single delegation
`self.ssh_client.exec_command(command=command, timeout=timeout)` whose
return value, the handle triple, is returned to the caller unchanged. -/
def execute (w : World) (s : SSHClientState) (command : String) (timeout : Nat) :
    Except PyError ExecHandles × SSHClientState × List Event :=
  if s.ssh_client then
    (w.execResult, s, [Event.execCommand command timeout])
  else
    (Except.error (PyError.attributeError "NoneType object has no attribute exec_command"),
      s, [])

/-- The informational log records carried by a trace, in order. -/
def infoRecords (evs : List Event) : List String :=
  evs.filterMap fun e =>
    match e with
    | Event.logInfo m => some m
    | _ => none

/-- The first close event (transport close or copy-channel close) of a
trace, if any. -/
def firstClose : List Event → Option Event
  | [] => none
  | Event.closeSSH :: _ => some Event.closeSSH
  | Event.closeSCP :: _ => some Event.closeSCP
  | _ :: rest => firstClose rest

/-
Content-level model for the round-trip law.  The claim is conditional on
the FileCopyChannel faithfully storing what it is given, so the external
scp collaborator is modelled as a store from remote paths to content;
`SSHClient.get` and `SSHClient.put` delegate to it unchanged, exactly as
lines 75 and 85 do.
-/

/-- Local or remote content: a single file of bytes, or a directory tree. -/
inductive FileContent where
  | file (bytes : List Nat)
  | dir (entries : List (String × FileContent))
  deriving Repr

/-- Whether the content is a single file rather than a directory. -/
def FileContent.isFile : FileContent → Bool
  | .file _ => true
  | .dir _ => false

/-- The remote host file store: an association of remote paths to content. -/
abbrev RemoteFS := List (String × FileContent)

/-- Faithful model of the external `scp.SCPClient.put` collaborator: stores
the given content at the remote path; transferring a directory requires
the recursive flag, as the spec says the channel defines. -/
def SCPClient.putStore (fs : RemoteFS) (content : FileContent)
    (remote_path : String) (recursive : Bool) : Except PyError RemoteFS :=
  if content.isFile || recursive then Except.ok ((remote_path, content) :: fs)
  else Except.error (PyError.scpError "directory transfer requires the recursive flag")

/-- Faithful model of the external `scp.SCPClient.get` collaborator: reads
back exactly the content stored at the remote path; retrieving a directory
requires the recursive flag. -/
def SCPClient.getStore (fs : RemoteFS) (remote_path : String)
    (recursive : Bool) : Except PyError FileContent :=
  match fs.lookup remote_path with
  | none => Except.error (PyError.scpError "No such file or directory")
  | some c =>
      if c.isFile || recursive then Except.ok c
      else Except.error (PyError.scpError "directory transfer requires the recursive flag")

/-- `SSHClient.put` (line 85) over the content-level collaborator: the
wrapper delegates to the channel unchanged. -/
def putContent (fs : RemoteFS) (content : FileContent) (remote_path : String)
    (recursive : Bool) : Except PyError RemoteFS :=
  SCPClient.putStore fs content remote_path recursive

/-- `SSHClient.get` (line 75) over the content-level collaborator: the
wrapper delegates to the channel unchanged. -/
def getContent (fs : RemoteFS) (remote_path : String) (recursive : Bool) :
    Except PyError FileContent :=
  SCPClient.getStore fs remote_path recursive

/-
Concrete runs and states used by witnesses and counterexamples.
-/

/-- A run in which every collaborator call succeeds. -/
def wOK : World :=
  { connectResult := none, bindResult := none, closeSSHResult := none,
    closeSCPResult := none, getResult := none, putResult := none,
    execResult := Except.ok { stdinWriter := 0, stdoutReader := 1, stderrReader := 2 } }

/-- A run in which binding the copy channel raises after a successful
connect. -/
def wBindFail : World :=
  { wOK with bindResult := some (PyError.scpError "bind failed") }

/-- A run in which closing the copy channel raises. -/
def wCloseSCPFail : World :=
  { wOK with closeSCPResult := some (PyError.scpError "close failed") }

/-- A fully constructed session state. -/
def sConnected : SSHClientState :=
  { host := "h", port := 22, user := "root", password := "root",
    ssh_client := true, scp_client := true }

/-- Disposal propagates no error, in any run and from any state: the whole
body of the destructor is wrapped in a catch-all handler. -/
theorem del_fst_eq_none (w : World) (s : SSHClientState) : (del w s).1 = none := by
  unfold del
  rcases delBody w s with ⟨o, evs⟩
  cases o <;> rfl

/-- Claim C1 is false as stated: in a run where the transport connects and
the copy-channel bind then raises, the constructor propagates the error,
but the constructor itself performs no transport close — its trace
contains no close event. -/
theorem C1_counterexample :
    (init wBindFail "h" 22 "root" "root").1 = some (PyError.scpError "bind failed") ∧
    Event.closeSSH ∉ (init wBindFail "h" 22 "root" "root").2.2 := by
  constructor
  · rfl
  · decide

/-- Claim C1 (amended): when the transport connects and the copy-channel
bind then raises, the constructor does not close the transport itself; it
propagates the error, so the caller receives no session object, and the
transport is closed only when the abandoned half-initialized object is
finalized: running the destructor on the state the failed constructor left
behind performs the transport close and raises nothing. -/
theorem C1_amended_cleanup_in_finalizer (w : World) (host : String) (port : Nat)
    (user password : String) (e : PyError)
    (hc : w.connectResult = none) (hb : w.bindResult = some e)
    (hcl : w.closeSSHResult = none) :
    (init w host port user password).1 = some e ∧
    Event.closeSSH ∉ (init w host port user password).2.2 ∧
    (del w (init w host port user password).2.1).1 = none ∧
    Event.closeSSH ∈ (del w (init w host port user password).2.1).2 := by
  unfold init del delBody
  rw [hc, hb, hcl]
  refine ⟨rfl, ?_, rfl, ?_⟩ <;> simp

/-- Witness for the amended C1 at a concrete run with a failing bind. -/
theorem C1_amended_cleanup_in_finalizer_witness :
    (wBindFail.connectResult = none ∧
      wBindFail.bindResult = some (PyError.scpError "bind failed") ∧
      wBindFail.closeSSHResult = none) ∧
    ((init wBindFail "h" 22 "root" "root").1 = some (PyError.scpError "bind failed") ∧
      Event.closeSSH ∉ (init wBindFail "h" 22 "root" "root").2.2 ∧
      (del wBindFail (init wBindFail "h" 22 "root" "root").2.1).1 = none ∧
      Event.closeSSH ∈ (del wBindFail (init wBindFail "h" 22 "root" "root").2.1).2) :=
  ⟨⟨rfl, rfl, rfl⟩,
    C1_amended_cleanup_in_finalizer wBindFail "h" 22 "root" "root"
      (PyError.scpError "bind failed") rfl rfl rfl⟩

/-- Claim C2 is false as stated: disposing a fully constructed session in a
run where both closes succeed, the first close event in the trace is the
transport close, not the copy-channel close, so the copy channel is not
closed first. -/
theorem C2_counterexample :
    firstClose (del wOK sConnected).2 = some Event.closeSSH ∧
    Event.closeSSH ≠ Event.closeSCP := by
  constructor
  · rfl
  · decide

/-- Claim C2 (amended): disposal of a fully constructed session closes the
SSHTransport first, then the FileCopyChannel, in that order, and then logs
a closure event naming the host. -/
theorem C2_amended_close_order (w : World) (s : SSHClientState)
    (hssh : s.ssh_client = true) (hscp : s.scp_client = true)
    (h1 : w.closeSSHResult = none) (h2 : w.closeSCPResult = none) :
    (del w s).2 = [Event.closeSSH, Event.closeSCP] ++
      SSHClient.log className (closedMsg s.host) := by
  unfold del delBody
  rw [hssh, hscp, h1, h2]
  rfl

/-- Witness for the amended C2 at a concrete connected session. -/
theorem C2_amended_close_order_witness :
    (sConnected.ssh_client = true ∧ sConnected.scp_client = true ∧
      wOK.closeSSHResult = none ∧ wOK.closeSCPResult = none) ∧
    (del wOK sConnected).2 = [Event.closeSSH, Event.closeSCP] ++
      SSHClient.log className (closedMsg sConnected.host) :=
  ⟨⟨rfl, rfl, rfl, rfl⟩, C2_amended_close_order wOK sConnected rfl rfl rfl rfl⟩

/-- Claim C3 is false as stated: a successful construction emits two
informational log records, not exactly one (the first is a source tag that
mentions neither host nor port). -/
theorem C3_counterexample :
    (infoRecords (init wOK "h" 22 "root" "root").2.2).length = 2 ∧ (2 : Nat) ≠ 1 := by
  constructor
  · rfl
  · decide

/-- Claim C3 (amended): on successful construction exactly two
informational records are emitted, in order: a source tag naming the
class, then one message that mentions both the host and the port that were
connected to. -/
theorem C3_amended_two_records (w : World) (host : String) (port : Nat)
    (user password : String)
    (hc : w.connectResult = none) (hb : w.bindResult = none) :
    infoRecords (init w host port user password).2.2 =
      ["Log source: " ++ className,
       "Connection with " ++ host ++ " host on " ++ toString port ++
         " port has been successfully established..."] := by
  unfold init
  rw [hc, hb]
  rfl

/-- Witness for the amended C3 at a concrete successful run. -/
theorem C3_amended_two_records_witness :
    (wOK.connectResult = none ∧ wOK.bindResult = none) ∧
    infoRecords (init wOK "h" 22 "root" "root").2.2 =
      ["Log source: " ++ className,
       "Connection with " ++ "h" ++ " host on " ++ toString 22 ++
         " port has been successfully established..."] :=
  ⟨⟨rfl, rfl⟩, C3_amended_two_records wOK "h" 22 "root" "root" rfl rfl⟩

/-- Claim C4: every call to get, put, or execute on a connected session
delegates to the underlying collaborator exactly once (the trace of the
call is the single delegation event, so there is no retry), and the value
or failure the collaborator returns is handed to the caller unchanged,
with no catching, translation or wrapping. -/
theorem C4_delegates_once_unchanged (w : World) (s : SSHClientState)
    (rp lp : String) (lps : List String) (rcv : Bool) (cmd : String) (tmo : Nat)
    (hssh : s.ssh_client = true) (hscp : s.scp_client = true) :
    (get w s rp lp rcv).1 = w.getResult ∧
    (get w s rp lp rcv).2.2 = [Event.scpGet rp lp rcv] ∧
    (put w s lps rp rcv).1 = w.putResult ∧
    (put w s lps rp rcv).2.2 = [Event.scpPut lps rp rcv] ∧
    (execute w s cmd tmo).1 = w.execResult ∧
    (execute w s cmd tmo).2.2 = [Event.execCommand cmd tmo] := by
  simp [get, put, execute, hssh, hscp]

/-- Witness for C4 at a concrete connected session. -/
theorem C4_delegates_once_unchanged_witness :
    (sConnected.ssh_client = true ∧ sConnected.scp_client = true) ∧
    ((get wOK sConnected "r" "." false).1 = wOK.getResult ∧
     (get wOK sConnected "r" "." false).2.2 = [Event.scpGet "r" "." false] ∧
     (put wOK sConnected ["l"] "r" false).1 = wOK.putResult ∧
     (put wOK sConnected ["l"] "r" false).2.2 = [Event.scpPut ["l"] "r" false] ∧
     (execute wOK sConnected "ls" 5).1 = wOK.execResult ∧
     (execute wOK sConnected "ls" 5).2.2 = [Event.execCommand "ls" 5]) :=
  ⟨⟨rfl, rfl⟩,
    C4_delegates_once_unchanged wOK sConnected "r" "." ["l"] false "ls" 5 rfl rfl⟩

/-- Claim C5: disposal never raises to the caller — whenever the close
sequence raises any error, disposal catches it, logs it, and propagates
nothing. -/
theorem C5_disposal_swallows (w : World) (s : SSHClientState) (e : PyError)
    (h : (delBody w s).1 = some e) :
    (del w s).1 = none ∧
    (del w s).2 = (delBody w s).2 ++ SSHClient.log className e.str := by
  have hd : delBody w s = (some e, (delBody w s).2) := by rw [← h]
  unfold del
  rw [hd]
  exact ⟨rfl, rfl⟩

/-- Witness for C5 at a concrete run where closing the copy channel
raises. -/
theorem C5_disposal_swallows_witness :
    (delBody wCloseSCPFail sConnected).1 = some (PyError.scpError "close failed") ∧
    ((del wCloseSCPFail sConnected).1 = none ∧
     (del wCloseSCPFail sConnected).2 = (delBody wCloseSCPFail sConnected).2 ++
       SSHClient.log className (PyError.scpError "close failed").str) :=
  ⟨rfl, C5_disposal_swallows wCloseSCPFail sConnected (PyError.scpError "close failed") rfl⟩

/-- Claim C6: disposal of a half-constructed session (transport
established, copy channel never bound, so the attribute still holds the
class default None) raises nothing and still closes the transport; the
AttributeError raised by the unbound channel is caught and logged. -/
theorem C6_half_constructed_disposal (w : World) (s : SSHClientState)
    (hssh : s.ssh_client = true) (hscp : s.scp_client = false)
    (hcl : w.closeSSHResult = none) :
    (del w s).1 = none ∧
    (del w s).2 = Event.closeSSH ::
      SSHClient.log className "NoneType object has no attribute close" := by
  unfold del delBody
  rw [hssh, hscp, hcl]
  exact ⟨rfl, rfl⟩

/-- Witness for C6 at the concrete state a failed bind leaves behind. -/
theorem C6_half_constructed_disposal_witness :
    ((init wBindFail "h" 22 "root" "root").2.1.ssh_client = true ∧
      (init wBindFail "h" 22 "root" "root").2.1.scp_client = false ∧
      wBindFail.closeSSHResult = none) ∧
    ((del wBindFail (init wBindFail "h" 22 "root" "root").2.1).1 = none ∧
     (del wBindFail (init wBindFail "h" 22 "root" "root").2.1).2 = Event.closeSSH ::
       SSHClient.log className "NoneType object has no attribute close") :=
  ⟨⟨rfl, rfl, rfl⟩,
    C6_half_constructed_disposal wBindFail
      (init wBindFail "h" 22 "root" "root").2.1 rfl rfl rfl⟩

/-- Claim C7: invoking disposal on an already disposed session raises
nothing: disposal does not modify the instance attributes, and from any
state, in any run — including runs where the repeated closes raise because
the handles are already closed — disposal propagates no error, so both the
first and the second disposal raise nothing. -/
theorem C7_double_disposal (w1 w2 : World) (s : SSHClientState) :
    (del w1 s).1 = none ∧ (del w2 s).1 = none :=
  ⟨del_fst_eq_none w1 s, del_fst_eq_none w2 s⟩

/-- Claim C8: execute performs exactly one channel-open on the transport,
passing the given command and timeout; its trace contains nothing else (in
particular no wait for completion); and it returns the handle triple the
channel produced unchanged — standard input writer, standard output
reader, standard error reader, in that order. -/
theorem C8_execute_channel (w : World) (s : SSHClientState) (command : String)
    (timeout : Nat) (hssh : s.ssh_client = true) :
    (execute w s command timeout).2.2 = [Event.execCommand command timeout] ∧
    (execute w s command timeout).1 = w.execResult ∧
    ∀ hnd : ExecHandles, w.execResult = Except.ok hnd →
      (execute w s command timeout).1 =
        Except.ok { stdinWriter := hnd.stdinWriter, stdoutReader := hnd.stdoutReader,
                    stderrReader := hnd.stderrReader } := by
  refine ⟨by simp [execute, hssh], by simp [execute, hssh], ?_⟩
  intro hnd hh
  simp [execute, hssh, hh]

/-- Witness for C8 at a concrete connected session. -/
theorem C8_execute_channel_witness :
    sConnected.ssh_client = true ∧
    (execute wOK sConnected "echo hello" 5).2.2 = [Event.execCommand "echo hello" 5] ∧
    (execute wOK sConnected "echo hello" 5).1 =
      Except.ok { stdinWriter := 0, stdoutReader := 1, stderrReader := 2 } :=
  ⟨rfl, (C8_execute_channel wOK sConnected "echo hello" 5 rfl).1,
    (C8_execute_channel wOK sConnected "echo hello" 5 rfl).2.2
      { stdinWriter := 0, stdoutReader := 1, stderrReader := 2 } rfl⟩

/-- Claim C9: over a faithful copy channel, put of a file — or of any
content when recursive is true — to a remote path, followed by get of the
same remote path, returns exactly the content that was put. -/
theorem C9_put_get_roundtrip (fs : RemoteFS) (c : FileContent) (rp : String)
    (recursive : Bool) (h : c.isFile = true ∨ recursive = true) :
    (putContent fs c rp recursive).bind (fun fs2 => getContent fs2 rp recursive) =
      Except.ok c := by
  have hlook : List.lookup rp ((rp, c) :: fs) = some c := by
    simp [List.lookup]
  rcases h with h | h <;>
    simp [putContent, getContent, SCPClient.putStore, SCPClient.getStore,
      Except.bind, h, hlook]

/-- Witness for C9: a two-byte file round-trips through an empty store. -/
theorem C9_put_get_roundtrip_witness :
    ((FileContent.file [104, 105]).isFile = true ∨ false = true) ∧
    (putContent [] (FileContent.file [104, 105]) "remote.txt" false).bind
        (fun fs2 => getContent fs2 "remote.txt" false) =
      Except.ok (FileContent.file [104, 105]) :=
  ⟨Or.inl rfl,
    C9_put_get_roundtrip [] (FileContent.file [104, 105]) "remote.txt" false (Or.inl rfl)⟩

/-- Claim C10: get, put and execute leave every session attribute — host,
port, user, password, ssh_client, scp_client — unchanged, whether the call
succeeds or the collaborator raises: the state returned is the input state
in every branch. -/
theorem C10_operations_frame (w : World) (s : SSHClientState) (rp lp : String)
    (lps : List String) (rcv : Bool) (cmd : String) (tmo : Nat) :
    (get w s rp lp rcv).2.1 = s ∧
    (put w s lps rp rcv).2.1 = s ∧
    (execute w s cmd tmo).2.1 = s := by
  refine ⟨?_, ?_, ?_⟩
  · unfold get
    split <;> rfl
  · unfold put
    split <;> rfl
  · unfold execute
    split <;> rfl

end EmbeddedAutomation
